import Mathlib

/-!
Shallow embedding of the GirlHacks25 mentorship chat client
(`src/unnamed/part_004`, the `ChatInterface` component, together with
`src/frontend/src/services/api.ts`) and of the spec-level persona matcher.

React state hooks are modelled as fields of an explicit `ChatState`
record; each event handler becomes a pure state-transition function.
Asynchronous network calls are resolved by passing the outcome
(`NetResult`) as a parameter, and the requests a handler issues are
returned alongside the new state.  The wall clock is abstracted as a
`now : String` timestamp parameter.
-/

namespace Gaia

/-- The five fixed persona keys (`goddessTabs` in the source). -/
inductive GoddessKey
  | gaia
  | athena
  | aphrodite
  | artemis
  | tyche
deriving DecidableEq, Fintype, Repr

/-- The string form of a persona key, as interpolated into messages. -/
def GoddessKey.key : GoddessKey → String
  | GoddessKey.gaia => "gaia"
  | GoddessKey.athena => "athena"
  | GoddessKey.aphrodite => "aphrodite"
  | GoddessKey.artemis => "artemis"
  | GoddessKey.tyche => "tyche"

/-- Model of `ApiCitation` from `services/api.ts`. -/
structure ApiCitation where
  id : String
  title : String
  url : String
  source : String
  snippet : String
  published : Option String
deriving DecidableEq, Repr

/-- Message roles (the `role` field of `ApiChatMessage`). -/
inductive Role
  | user
  | assistant
deriving DecidableEq, Repr

/-- JavaScript `String.prototype.trim`: drop leading and trailing
whitespace.  Defined structurally over the character list so that it
evaluates by kernel reduction. -/
def jsTrim (s : String) : String :=
  String.mk
    (((s.toList.dropWhile Char.isWhitespace).reverse.dropWhile
        Char.isWhitespace).reverse)

/-- The client-side `ChatMessage` record built in `ChatInterface`.
Locally created messages always carry a goddess key, so the field is
not optional here. -/
structure ChatMessage where
  id : String
  role : Role
  content : String
  goddess : GoddessKey
  intent : Option String
  timestamp : String
  citations : List ApiCitation
  suggested : Option GoddessKey
  handoffReason : Option (List String)
deriving DecidableEq, Repr

/-- Model of `ApiChatHistory`: one ordered message list per persona. -/
structure ApiChatHistory where
  gaia : List ChatMessage
  athena : List ChatMessage
  aphrodite : List ChatMessage
  artemis : List ChatMessage
  tyche : List ChatMessage
deriving DecidableEq, Repr

/-- Dynamic-key read `history[key]`. -/
def ApiChatHistory.get (h : ApiChatHistory) : GoddessKey → List ChatMessage
  | GoddessKey.gaia => h.gaia
  | GoddessKey.athena => h.athena
  | GoddessKey.aphrodite => h.aphrodite
  | GoddessKey.artemis => h.artemis
  | GoddessKey.tyche => h.tyche

/-- Dynamic-key write `{...h, [key]: v}`. -/
def ApiChatHistory.set (h : ApiChatHistory) : GoddessKey → List ChatMessage → ApiChatHistory
  | GoddessKey.gaia, v => { h with gaia := v }
  | GoddessKey.athena, v => { h with athena := v }
  | GoddessKey.aphrodite, v => { h with aphrodite := v }
  | GoddessKey.artemis, v => { h with artemis := v }
  | GoddessKey.tyche, v => { h with tyche := v }

/-- The all-empty history used by the initial state and by reset. -/
def emptyHistory : ApiChatHistory :=
  { gaia := [], athena := [], aphrodite := [], artemis := [], tyche := [] }

/-- The `trace` object of an `ApiChatResponse`, with the fields the
client reads: `stage`, `suggested` and `handoff_reason`. -/
structure ApiTrace where
  stage : Option String
  suggested : Option GoddessKey
  handoff_reason : Option (List String)
deriving DecidableEq, Repr

/-- Model of `ApiChatResponse` from `services/api.ts`; fields the client guards
with `??` are modelled as options. -/
structure ApiChatResponse where
  message : String
  goddess : Option GoddessKey
  intent : Option String
  citations : Option (List ApiCitation)
  timestamp : Option String
  trace : Option ApiTrace
deriving DecidableEq, Repr

/-- The two handoff actions. -/
inductive HandoffAction
  | confirm
  | decline
deriving DecidableEq, Repr

/-- Body of a `POST /api/chat` request. -/
structure ChatRequestBody where
  message : String
  goddess : GoddessKey
deriving DecidableEq, Repr

/-- Body of a `POST /api/chat/handoff` request. -/
structure HandoffRequestBody where
  action : HandoffAction
deriving DecidableEq, Repr

/-- The authenticated requests the client can issue. -/
inductive ApiRequest
  | chat (body : ChatRequestBody)
  | handoff (body : HandoffRequestBody)
  | reset
deriving DecidableEq, Repr

/-- Embedding of `sendChatMessage` in `services/api.ts`: posts `{message, goddess}`
to `/api/chat`. -/
def sendChatMessage (message : String) (goddess : GoddessKey) : ApiRequest :=
  ApiRequest.chat { message := message, goddess := goddess }

/-- Embedding of `confirmHandoff` in `services/api.ts`: posts `{action: confirm}`
to `/api/chat/handoff`. -/
def confirmHandoff : ApiRequest :=
  ApiRequest.handoff { action := HandoffAction.confirm }

/-- Embedding of `declineHandoff` in `services/api.ts`: posts `{action: decline}`
to `/api/chat/handoff`. -/
def declineHandoff : ApiRequest :=
  ApiRequest.handoff { action := HandoffAction.decline }

/-- Outcome of an awaited network call: a decoded response, or a
thrown error. -/
inductive NetResult
  | ok (response : ApiChatResponse)
  | err
deriving DecidableEq, Repr

/-- The `ChatInterface` component state: one field per `useState` hook,
plus the Auth0 flag and whether `tokenFetcherRef.current` is set.
`personas` keeps the loaded display names as an association list. -/
structure ChatState where
  messagesByGoddess : ApiChatHistory
  activeTab : GoddessKey
  personas : List (GoddessKey × String)
  currentGoddess : GoddessKey
  inputText : String
  isHydrating : Bool
  isSending : Bool
  error : Option String
  pendingRecommendation : Option GoddessKey
  pendingTabSwitch : Option GoddessKey
  isHandoffActioning : Bool
  isAuthenticated : Bool
  hasTokenFetcher : Bool
deriving DecidableEq, Repr

/-- The functional updater passed to `setMessagesByGoddess` in the
normal flow of `handleSend` (part_004 lines 393-409): when the reply is
attributed to a different persona than the tab it was sent from, the
just-sent user message is filtered out of the source tab and re-added,
with its goddess rewritten, to the destination, before the assistant
reply is appended there. -/
def normalFlowUpdate (prev : ApiChatHistory) (sourceTab : GoddessKey)
    (userMessage assistantMessage : ChatMessage) : ApiChatHistory :=
  let destination := assistantMessage.goddess
  let next :=
    if destination ≠ sourceTab then
      (prev.set sourceTab
          ((prev.get sourceTab).filter (fun msg => msg.id != userMessage.id))).set
        destination
        (prev.get destination ++ [{ userMessage with goddess := destination }])
    else
      prev.set destination (prev.get destination)
  next.set destination (next.get destination ++ [assistantMessage])

/-- Embedding of `handleSend` (part_004 lines 317-435): guards, optimistic user
append, the awaiting-confirmation branch, the normal flow and the
error fallback.  Returns the new state and the list of `/api/chat`
requests issued. -/
def handleSend (s : ChatState) (overrideMessage : Option String) (now : String)
    (net : NetResult) : ChatState × List ApiRequest :=
  let trimmed := jsTrim (overrideMessage.getD s.inputText)
  if trimmed = "" ∨ s.isSending = true then (s, [])
  else if s.isAuthenticated = false then (s, [])
  else if s.pendingRecommendation.isSome = true ∨ s.pendingTabSwitch.isSome = true then
    (s, [])
  else
    let sourceTab := s.activeTab
    let userMessage : ChatMessage :=
      { id := "user-" ++ now
        role := Role.user
        content := trimmed
        goddess := sourceTab
        intent := none
        timestamp := now
        citations := []
        suggested := none
        handoffReason := none }
    let s1 : ChatState :=
      { s with
        error := none
        messagesByGoddess :=
          s.messagesByGoddess.set sourceTab
            (s.messagesByGoddess.get sourceTab ++ [userMessage])
        inputText := if overrideMessage.isNone then "" else s.inputText
        isSending := true
        pendingRecommendation := none
        pendingTabSwitch := none
        hasTokenFetcher := true }
    let requests := [sendChatMessage trimmed sourceTab]
    match net with
    | NetResult.err =>
      let fallbackMessage : ChatMessage :=
        { id := "error-" ++ now
          role := Role.assistant
          goddess := sourceTab
          content := "I ran into a technical issue reaching my scrolls. Let\x27s retry shortly."
          intent := none
          timestamp := now
          citations := []
          suggested := none
          handoffReason := none }
      ({ s1 with
          error := some "Gaia is taking a quick pause. Try again in a moment."
          messagesByGoddess :=
            s1.messagesByGoddess.set sourceTab
              (s1.messagesByGoddess.get sourceTab ++ [fallbackMessage])
          isSending := false }, requests)
    | NetResult.ok response =>
      match response.trace with
      | some t =>
        match t.stage, t.suggested with
        | some stage, some suggested =>
          if stage = "awaiting_confirmation" then
            let assistantMessage : ChatMessage :=
              { id := "assistant-" ++ response.timestamp.getD now
                role := Role.assistant
                content :=
                  if response.message ≠ "" then response.message
                  else
                    "I can connect you with " ++
                      ((s.personas.lookup suggested).getD suggested.key) ++ "."
                goddess := response.goddess.getD sourceTab
                intent := some (response.intent.getD "handoff_request")
                timestamp := response.timestamp.getD now
                citations := response.citations.getD []
                suggested := some suggested
                handoffReason := t.handoff_reason }
            ({ s1 with
                pendingRecommendation := some suggested
                messagesByGoddess :=
                  s1.messagesByGoddess.set assistantMessage.goddess
                    (s1.messagesByGoddess.get assistantMessage.goddess ++
                      [assistantMessage])
                isSending := false }, requests)
          else
            let assistantMessage : ChatMessage :=
              { id := "assistant-" ++ response.timestamp.getD now
                role := Role.assistant
                content := response.message
                goddess := response.goddess.getD GoddessKey.gaia
                intent := response.intent
                timestamp := response.timestamp.getD now
                citations := response.citations.getD []
                suggested := none
                handoffReason := none }
            ({ s1 with
                messagesByGoddess :=
                  normalFlowUpdate s1.messagesByGoddess sourceTab userMessage
                    assistantMessage
                isSending := false }, requests)
        | _, _ =>
          let assistantMessage : ChatMessage :=
            { id := "assistant-" ++ response.timestamp.getD now
              role := Role.assistant
              content := response.message
              goddess := response.goddess.getD GoddessKey.gaia
              intent := response.intent
              timestamp := response.timestamp.getD now
              citations := response.citations.getD []
              suggested := none
              handoffReason := none }
          ({ s1 with
              messagesByGoddess :=
                normalFlowUpdate s1.messagesByGoddess sourceTab userMessage
                  assistantMessage
              isSending := false }, requests)
      | none =>
        let assistantMessage : ChatMessage :=
          { id := "assistant-" ++ response.timestamp.getD now
            role := Role.assistant
            content := response.message
            goddess := response.goddess.getD GoddessKey.gaia
            intent := response.intent
            timestamp := response.timestamp.getD now
            citations := response.citations.getD []
            suggested := none
            handoffReason := none }
        ({ s1 with
            messagesByGoddess :=
              normalFlowUpdate s1.messagesByGoddess sourceTab userMessage
                assistantMessage
            isSending := false }, requests)

/-- Embedding of `handleHandoffAction` (part_004 lines 438-474): guards, the
`/api/chat/handoff` call, clearing the pending recommendation,
appending the reply, and switching personas only on a confirmed
handoff whose response names a goddess.  On a thrown error only the
error banner is set (the `finally` clears `isHandoffActioning`). -/
def handleHandoffAction (s : ChatState) (action : HandoffAction) (now : String)
    (net : NetResult) : ChatState × List ApiRequest :=
  if s.hasTokenFetcher = false then (s, [])
  else if s.pendingRecommendation.isNone = true then (s, [])
  else
    let requests :=
      [if action = HandoffAction.confirm then confirmHandoff else declineHandoff]
    match net with
    | NetResult.err =>
      ({ s with
          error := some "Could not complete the handoff. Please try again."
          isHandoffActioning := false }, requests)
    | NetResult.ok response =>
      let assistantMessage : ChatMessage :=
        { id := "assistant-" ++ response.timestamp.getD now
          role := Role.assistant
          content := response.message
          goddess := response.goddess.getD s.currentGoddess
          intent := response.intent
          timestamp := response.timestamp.getD now
          citations := response.citations.getD []
          suggested := none
          handoffReason := none }
      let s1 : ChatState :=
        { s with
          pendingRecommendation := none
          pendingTabSwitch := none
          messagesByGoddess :=
            s.messagesByGoddess.set assistantMessage.goddess
              (s.messagesByGoddess.get assistantMessage.goddess ++ [assistantMessage])
          isHandoffActioning := false }
      match action, response.goddess with
      | HandoffAction.confirm, some key =>
        ({ s1 with activeTab := key, currentGoddess := key }, requests)
      | _, _ => (s1, requests)

/-- Embedding of `handleTabSwitchAction` (part_004 lines 477-483). -/
def handleTabSwitchAction (s : ChatState) (action : HandoffAction) : ChatState :=
  let s1 :=
    if action = HandoffAction.confirm then
      match s.pendingTabSwitch with
      | some k => { s with activeTab := k, currentGoddess := k }
      | none => s
    else s
  { s1 with pendingTabSwitch := none }

/-- Embedding of `handleReset` (part_004 lines 485-503). -/
def handleReset (s : ChatState) (net : NetResult) : ChatState × List ApiRequest :=
  if s.hasTokenFetcher = false then (s, [])
  else
    match net with
    | NetResult.err => (s, [ApiRequest.reset])
    | NetResult.ok _ =>
      ({ s with
          currentGoddess := GoddessKey.gaia
          activeTab := GoddessKey.gaia
          messagesByGoddess := emptyHistory
          pendingRecommendation := none
          pendingTabSwitch := none }, [ApiRequest.reset])

/-!
Persona matcher.  The backend module `backend/app/goddess_matcher.py`
named by `PROJECT_STRUCTURE.md` is not part of the source snapshot, so
the matcher is modelled from the spec.
-/

/-- Modelled from the spec: the configured keyword lists of
`backend/app/goddess_matcher.py` (file absent from the snapshot),
with the keyword lists the repository documentation records for
Athena and Aphrodite and documentation-style lists for the rest;
Gaia is the default persona.  A message is modelled as its list of
tokens. -/
def goddessKeywords : GoddessKey → List String
  | GoddessKey.gaia => []
  | GoddessKey.athena =>
    ["study", "academic", "course", "homework", "exam", "research", "learning",
      "education"]
  | GoddessKey.aphrodite =>
    ["wellness", "stress", "anxiety", "self-care", "relationships", "emotional"]
  | GoddessKey.artemis =>
    ["independence", "nature", "wilderness", "hunting", "archery",
      "self-reliance", "outdoor", "adventure", "freedom"]
  | GoddessKey.tyche =>
    ["funding", "scholarship", "grant", "financial", "fortune", "luck"]

/-- The five personas, in configuration order. -/
def goddessList : List GoddessKey :=
  [GoddessKey.gaia, GoddessKey.athena, GoddessKey.aphrodite, GoddessKey.artemis,
    GoddessKey.tyche]

/-- Modelled from the spec: the matcher scores each persona by counting
its configured keywords that occur in the message. -/
def keywordScore (msg : List String) (g : GoddessKey) : Nat :=
  ((goddessKeywords g).filter (fun k => msg.contains k)).length

/-- One step of the matcher fold: a strictly better-scoring persona
replaces the current best; on an exact tie the optional
embedding-similarity comparison `embedPrefers` breaks the tie. -/
def matchStep (embedPrefers : GoddessKey → GoddessKey → Bool) (msg : List String)
    (best g : GoddessKey) : GoddessKey :=
  if keywordScore msg best < keywordScore msg g then g
  else if keywordScore msg g = keywordScore msg best ∧ embedPrefers g best = true then g
  else best

/-- Modelled from the spec: the persona matcher of
`backend/app/goddess_matcher.py` (file absent from the snapshot).
It scores each of the five personas by counting configured keyword
matches, breaks ties with the optional embedding-similarity
comparison, and returns the default persona (Gaia) when no keywords
match. -/
def matchGoddess (embedPrefers : GoddessKey → GoddessKey → Bool)
    (msg : List String) : GoddessKey :=
  if goddessList.all (fun g => keywordScore msg g == 0) then GoddessKey.gaia
  else goddessList.foldl (matchStep embedPrefers msg) GoddessKey.gaia

/-!  Basic lemmas about the history record. -/

theorem ApiChatHistory.get_set (h : ApiChatHistory) (k k' : GoddessKey)
    (v : List ChatMessage) :
    (h.set k v).get k' = if k' = k then v else h.get k' := by
  cases k <;> cases k' <;> simp [ApiChatHistory.get, ApiChatHistory.set]

theorem ApiChatHistory.get_set_self (h : ApiChatHistory) (k : GoddessKey)
    (v : List ChatMessage) : (h.set k v).get k = v := by
  simp [ApiChatHistory.get_set]

theorem ApiChatHistory.get_set_ne (h : ApiChatHistory) (k k' : GoddessKey)
    (v : List ChatMessage) (hne : k' ≠ k) : (h.set k v).get k' = h.get k' := by
  simp [ApiChatHistory.get_set, hne]

/-!  Concrete sample data used by the closed witness instances. -/

/-- A concrete citation, as a retrieval hit would produce. -/
def sampleCitation : ApiCitation :=
  { id := "doc-1", title := "Tutoring Center", url := "https://example.edu/tutoring",
    source := "campus", snippet := "Free tutoring hours.", published := none }

/-- A concrete component state: authenticated, idle, empty histories. -/
def sampleState : ChatState :=
  { messagesByGoddess := emptyHistory
    activeTab := GoddessKey.gaia
    personas := []
    currentGoddess := GoddessKey.gaia
    inputText := ""
    isHydrating := false
    isSending := false
    error := none
    pendingRecommendation := none
    pendingTabSwitch := none
    isHandoffActioning := false
    isAuthenticated := true
    hasTokenFetcher := true }

/-- A concrete successful chat response attributed to Athena. -/
def sampleResponse : ApiChatResponse :=
  { message := "Here is a study plan."
    goddess := some GoddessKey.athena
    intent := some "academics"
    citations := some [sampleCitation]
    timestamp := some "2025-09-27T10:00:00Z"
    trace := none }

/-!  C10 -/

/-- C10: `handleSend` is a no-op — state returned unchanged and no
request issued — whenever the trimmed message is empty, a send is
already in flight, or the user is unauthenticated. -/
theorem blank_or_busy_send_is_noop (s : ChatState) (o : Option String)
    (now : String) (net : NetResult)
    (h : jsTrim (o.getD s.inputText) = "" ∨ s.isSending = true ∨
      s.isAuthenticated = false) :
    handleSend s o now net = (s, []) := by
  simp only [handleSend]
  rcases h with h | h | h
  · rw [if_pos (Or.inl h)]
  · rw [if_pos (Or.inr h)]
  · by_cases h1 : jsTrim (o.getD s.inputText) = "" ∨ s.isSending = true
    · rw [if_pos h1]
    · rw [if_neg h1, if_pos h]

/-- C10 witness: a whitespace-only input at the sample state. -/
theorem blank_or_busy_send_is_noop_check :
    handleSend { sampleState with inputText := "   " } none "t0" NetResult.err =
      ({ sampleState with inputText := "   " }, []) :=
  blank_or_busy_send_is_noop { sampleState with inputText := "   " } none "t0"
    NetResult.err (Or.inl (by decide))

/-!  C3 -/

/-- C3: while a handoff confirmation is pending
(`pendingRecommendation` set), `handleSend` returns the state
untouched and issues no request, for every input and network outcome;
a tab-switch action never clears the pending recommendation, so only
confirm/decline (or reset) leave the blocked state. -/
theorem pending_handoff_blocks_send (s : ChatState) (o : Option String)
    (now : String) (net : NetResult)
    (hpend : s.pendingRecommendation.isSome = true) :
    handleSend s o now net = (s, []) ∧
      ∀ act : HandoffAction,
        (handleTabSwitchAction s act).pendingRecommendation =
          s.pendingRecommendation := by
  constructor
  · simp only [handleSend]
    by_cases h1 : jsTrim (o.getD s.inputText) = "" ∨ s.isSending = true
    · rw [if_pos h1]
    · rw [if_neg h1]
      by_cases h2 : s.isAuthenticated = false
      · rw [if_pos h2]
      · rw [if_neg h2, if_pos (Or.inl hpend)]
  · intro act
    cases act <;>
      simp only [handleTabSwitchAction] <;>
      cases hts : s.pendingTabSwitch <;> simp [hts]

/-- C3 witness: a pending Athena recommendation blocks a concrete
send. -/
theorem pending_handoff_blocks_send_check :
    handleSend
        { sampleState with
          inputText := "hello", pendingRecommendation := some GoddessKey.athena }
        none "t0" (NetResult.ok sampleResponse) =
      ({ sampleState with
          inputText := "hello", pendingRecommendation := some GoddessKey.athena },
        []) ∧
      ∀ act : HandoffAction,
        (handleTabSwitchAction
            { sampleState with
              inputText := "hello",
              pendingRecommendation := some GoddessKey.athena }
            act).pendingRecommendation =
          some GoddessKey.athena :=
  pending_handoff_blocks_send
    { sampleState with
      inputText := "hello", pendingRecommendation := some GoddessKey.athena }
    none "t0" (NetResult.ok sampleResponse) (by decide)

/-!  C1 -/

/-- C1: for every pending handoff, a completed `decline` action leaves
the active persona unchanged — `currentGoddess` and `activeTab` keep
their prior values — and clears the pending recommendation, returning
the conversation to the normal state. -/
theorem decline_preserves_active_persona (s : ChatState) (now : String)
    (r : ApiChatResponse) (htok : s.hasTokenFetcher = true)
    (hpend : s.pendingRecommendation.isSome = true) :
    ((handleHandoffAction s HandoffAction.decline now (NetResult.ok r)).1.currentGoddess
        = s.currentGoddess) ∧
      ((handleHandoffAction s HandoffAction.decline now (NetResult.ok r)).1.activeTab
        = s.activeTab) ∧
      ((handleHandoffAction s HandoffAction.decline now
          (NetResult.ok r)).1.pendingRecommendation = none) := by
  have hni : s.pendingRecommendation.isNone = false := by
    cases hp : s.pendingRecommendation with
    | none => rw [hp] at hpend; simp at hpend
    | some g => simp [hp]
  simp [handleHandoffAction, htok, hni]

/-- C1 witness: declining a pending Athena handoff at a concrete
state. -/
theorem decline_preserves_active_persona_check :
    ((handleHandoffAction
          { sampleState with pendingRecommendation := some GoddessKey.athena }
          HandoffAction.decline "t0" (NetResult.ok sampleResponse)).1.currentGoddess
        = GoddessKey.gaia) ∧
      ((handleHandoffAction
            { sampleState with pendingRecommendation := some GoddessKey.athena }
            HandoffAction.decline "t0" (NetResult.ok sampleResponse)).1.activeTab
          = GoddessKey.gaia) ∧
      ((handleHandoffAction
            { sampleState with pendingRecommendation := some GoddessKey.athena }
            HandoffAction.decline "t0"
            (NetResult.ok sampleResponse)).1.pendingRecommendation = none) :=
  decline_preserves_active_persona
    { sampleState with pendingRecommendation := some GoddessKey.athena }
    "t0" sampleResponse (by decide) (by decide)

/-!  C2 -/

/-- Modelled from the spec: the response of the backend
`POST /api/chat/handoff` handler on a `confirm` action (the backend
package named by `PROJECT_STRUCTURE.md` is absent from the source
snapshot).  Per the handoff state machine of the spec, `confirm`
transitions to `normal` with the persona switched to the suggested
one, so the reply carries the suggested persona in its `goddess`
field. -/
def serverConfirmResponse (suggested : GoddessKey) (msg : String)
    (intent : Option String) (cites : List ApiCitation) (ts : String) :
    ApiChatResponse :=
  { message := msg
    goddess := some suggested
    intent := intent
    citations := some cites
    timestamp := some ts
    trace := none }

/-- C2: confirming a pending handoff whose suggested persona is `sg`
sets the active persona — both `currentGoddess` and `activeTab` — to
`sg`, and clears the pending recommendation. -/
theorem confirm_switches_to_suggested (s : ChatState) (now : String)
    (sg : GoddessKey) (msg : String) (intent : Option String)
    (cites : List ApiCitation) (ts : String)
    (htok : s.hasTokenFetcher = true)
    (hpend : s.pendingRecommendation = some sg) :
    ((handleHandoffAction s HandoffAction.confirm now
        (NetResult.ok (serverConfirmResponse sg msg intent cites ts))).1.currentGoddess
        = sg) ∧
      ((handleHandoffAction s HandoffAction.confirm now
          (NetResult.ok (serverConfirmResponse sg msg intent cites ts))).1.activeTab
        = sg) ∧
      ((handleHandoffAction s HandoffAction.confirm now
          (NetResult.ok
            (serverConfirmResponse sg msg intent cites ts))).1.pendingRecommendation
        = none) := by
  simp [handleHandoffAction, serverConfirmResponse, htok, hpend]

/-- C2 witness: confirming a pending Athena handoff switches both
persona fields to Athena. -/
theorem confirm_switches_to_suggested_check :
    ((handleHandoffAction
          { sampleState with pendingRecommendation := some GoddessKey.athena }
          HandoffAction.confirm "t0"
          (NetResult.ok
            (serverConfirmResponse GoddessKey.athena "Athena here." none []
              "t1"))).1.currentGoddess = GoddessKey.athena) ∧
      ((handleHandoffAction
            { sampleState with pendingRecommendation := some GoddessKey.athena }
            HandoffAction.confirm "t0"
            (NetResult.ok
              (serverConfirmResponse GoddessKey.athena "Athena here." none []
                "t1"))).1.activeTab = GoddessKey.athena) ∧
      ((handleHandoffAction
            { sampleState with pendingRecommendation := some GoddessKey.athena }
            HandoffAction.confirm "t0"
            (NetResult.ok
              (serverConfirmResponse GoddessKey.athena "Athena here." none []
                "t1"))).1.pendingRecommendation = none) :=
  confirm_switches_to_suggested
    { sampleState with pendingRecommendation := some GoddessKey.athena }
    "t0" GoddessKey.athena "Athena here." none [] "t1" (by decide) (by decide)

/-!  C9 -/

/-- C9: a failed handoff request (confirm or decline) leaves the
conversation state unchanged — the pending recommendation stays set,
the active persona is not switched, no history is touched — and only
the error banner is set, after exactly one handoff request. -/
theorem handoff_error_leaves_state_unchanged (s : ChatState)
    (act : HandoffAction) (now : String)
    (htok : s.hasTokenFetcher = true)
    (hpend : s.pendingRecommendation.isSome = true) :
    ((handleHandoffAction s act now NetResult.err).1.pendingRecommendation
        = s.pendingRecommendation) ∧
      ((handleHandoffAction s act now NetResult.err).1.currentGoddess
        = s.currentGoddess) ∧
      ((handleHandoffAction s act now NetResult.err).1.activeTab = s.activeTab) ∧
      ((handleHandoffAction s act now NetResult.err).1.messagesByGoddess
        = s.messagesByGoddess) ∧
      ((handleHandoffAction s act now NetResult.err).1.error
        = some "Could not complete the handoff. Please try again.") ∧
      ((handleHandoffAction s act now NetResult.err).2
        = [if act = HandoffAction.confirm then confirmHandoff
            else declineHandoff]) := by
  have hni : s.pendingRecommendation.isNone = false := by
    cases hp : s.pendingRecommendation with
    | none => rw [hp] at hpend; simp at hpend
    | some g => simp [hp]
  simp [handleHandoffAction, htok, hni]

/-- C9 witness: a failed confirm on a pending Athena handoff at the
sample state. -/
theorem handoff_error_leaves_state_unchanged_check :
    ((handleHandoffAction
          { sampleState with pendingRecommendation := some GoddessKey.athena }
          HandoffAction.confirm "t0" NetResult.err).1.pendingRecommendation
        = some GoddessKey.athena) ∧
      ((handleHandoffAction
            { sampleState with pendingRecommendation := some GoddessKey.athena }
            HandoffAction.confirm "t0" NetResult.err).1.currentGoddess
        = GoddessKey.gaia) ∧
      ((handleHandoffAction
            { sampleState with pendingRecommendation := some GoddessKey.athena }
            HandoffAction.confirm "t0" NetResult.err).1.activeTab
        = GoddessKey.gaia) ∧
      ((handleHandoffAction
            { sampleState with pendingRecommendation := some GoddessKey.athena }
            HandoffAction.confirm "t0" NetResult.err).1.messagesByGoddess
        = emptyHistory) ∧
      ((handleHandoffAction
            { sampleState with pendingRecommendation := some GoddessKey.athena }
            HandoffAction.confirm "t0" NetResult.err).1.error
        = some "Could not complete the handoff. Please try again.") ∧
      ((handleHandoffAction
            { sampleState with pendingRecommendation := some GoddessKey.athena }
            HandoffAction.confirm "t0" NetResult.err).2
        = [if HandoffAction.confirm = HandoffAction.confirm then confirmHandoff
            else declineHandoff]) :=
  handoff_error_leaves_state_unchanged
    { sampleState with pendingRecommendation := some GoddessKey.athena }
    HandoffAction.confirm "t0" (by decide) (by decide)

/-!  C4 -/

/-- C4: when the chat request fails, exactly one generic apology
assistant message with an empty citations list is appended to the
history of the source tab after the user message — the history of
every other persona is untouched — and exactly one chat request was issued, so
there is no retry. -/
theorem chat_error_appends_single_apology (s : ChatState) (o : Option String)
    (now : String)
    (hne : jsTrim (o.getD s.inputText) ≠ "") (hsend : s.isSending = false)
    (hauth : s.isAuthenticated = true)
    (hpend : s.pendingRecommendation = none)
    (htab : s.pendingTabSwitch = none) :
    ((handleSend s o now NetResult.err).1.messagesByGoddess.get s.activeTab
        = s.messagesByGoddess.get s.activeTab ++
          [{ id := "user-" ++ now, role := Role.user
             content := jsTrim (o.getD s.inputText), goddess := s.activeTab
             intent := none, timestamp := now, citations := []
             suggested := none, handoffReason := none },
            { id := "error-" ++ now, role := Role.assistant
              goddess := s.activeTab
              content := "I ran into a technical issue reaching my scrolls. Let\x27s retry shortly."
              intent := none, timestamp := now, citations := []
              suggested := none, handoffReason := none }]) ∧
      (∀ g : GoddessKey, g ≠ s.activeTab →
        (handleSend s o now NetResult.err).1.messagesByGoddess.get g
          = s.messagesByGoddess.get g) ∧
      ((handleSend s o now NetResult.err).1.error
        = some "Gaia is taking a quick pause. Try again in a moment.") ∧
      ((handleSend s o now NetResult.err).2
        = [sendChatMessage (jsTrim (o.getD s.inputText)) s.activeTab]) := by
  simp only [handleSend]
  rw [if_neg, if_neg, if_neg]
  · refine ⟨?_, ?_, by rfl, by rfl⟩
    · simp [ApiChatHistory.get_set]
    · intro g hg
      simp [ApiChatHistory.get_set, hg]
  · simp [hpend, htab]
  · simp [hauth]
  · simp [hne, hsend]

/-- C4 witness: a failed send of "help" at the sample state appends the
user message and the apology to the Gaia history only. -/
theorem chat_error_appends_single_apology_check :
    ((handleSend sampleState (some "help") "t0" NetResult.err).1.messagesByGoddess.get
          sampleState.activeTab
        = sampleState.messagesByGoddess.get sampleState.activeTab ++
          [{ id := "user-" ++ "t0", role := Role.user
             content := jsTrim ((some "help").getD sampleState.inputText)
             goddess := sampleState.activeTab
             intent := none, timestamp := "t0", citations := []
             suggested := none, handoffReason := none },
            { id := "error-" ++ "t0", role := Role.assistant
              goddess := sampleState.activeTab
              content := "I ran into a technical issue reaching my scrolls. Let\x27s retry shortly."
              intent := none, timestamp := "t0", citations := []
              suggested := none, handoffReason := none }]) ∧
      (∀ g : GoddessKey, g ≠ sampleState.activeTab →
        (handleSend sampleState (some "help") "t0"
              NetResult.err).1.messagesByGoddess.get g
          = sampleState.messagesByGoddess.get g) ∧
      ((handleSend sampleState (some "help") "t0" NetResult.err).1.error
        = some "Gaia is taking a quick pause. Try again in a moment.") ∧
      ((handleSend sampleState (some "help") "t0" NetResult.err).2
        = [sendChatMessage (jsTrim ((some "help").getD sampleState.inputText))
            sampleState.activeTab]) :=
  chat_error_appends_single_apology sampleState (some "help") "t0" (by decide)
    (by decide) (by decide) (by decide) (by decide)

/-!  C5 -/

/-- The user message of the C5 relocation scenario, sent from the Gaia
tab. -/
def relocUser : ChatMessage :=
  { id := "user-t0", role := Role.user, content := "help"
    goddess := GoddessKey.gaia, intent := none, timestamp := "t0"
    citations := [], suggested := none, handoffReason := none }

/-- An assistant reply attributed to Athena, a different persona than
the Gaia source tab. -/
def relocAssistant : ChatMessage :=
  { id := "assistant-t1", role := Role.assistant, content := "Here."
    goddess := GoddessKey.athena, intent := some "academics", timestamp := "t1"
    citations := [], suggested := none, handoffReason := none }

/-- An assistant reply attributed to Gaia, the same persona as the
source tab. -/
def relocAssistantSame : ChatMessage :=
  { id := "assistant-t1", role := Role.assistant, content := "Here."
    goddess := GoddessKey.gaia, intent := some "general", timestamp := "t1"
    citations := [], suggested := none, handoffReason := none }

/-- The history right before the normal-flow update: the user message
sits in the Gaia list. -/
def relocPrev : ApiChatHistory := { emptyHistory with gaia := [relocUser] }

/-- C5 counterexample: the normal-flow history update is not
append-only.  When the reply is attributed to Athena while the message
was sent from the Gaia tab, the user message is removed from the Gaia
history (so that history is no extension of its previous value), and
it reappears in the Athena history with its goddess field mutated. -/
theorem history_append_only_refuted :
    (¬ ∃ suffix : List ChatMessage,
      (normalFlowUpdate relocPrev GoddessKey.gaia relocUser
            relocAssistant).get GoddessKey.gaia
        = relocPrev.get GoddessKey.gaia ++ suffix) ∧
      (normalFlowUpdate relocPrev GoddessKey.gaia relocUser
            relocAssistant).get GoddessKey.athena
        = [{ relocUser with goddess := GoddessKey.athena }, relocAssistant] := by
  constructor
  · rintro ⟨suffix, h⟩
    have h1 :
        (normalFlowUpdate relocPrev GoddessKey.gaia relocUser
              relocAssistant).get GoddessKey.gaia = [] := by decide
    have h2 : relocPrev.get GoddessKey.gaia = [relocUser] := by decide
    rw [h1, h2] at h
    exact absurd h (by simp)
  · decide

/-- Appending to one persona list extends every persona list. -/
theorem set_append_extends (h : ApiChatHistory) (k : GoddessKey)
    (l : List ChatMessage) (g : GoddessKey) :
    ∃ suffix, (h.set k (h.get k ++ l)).get g = h.get g ++ suffix := by
  by_cases hg : g = k
  · subst hg
    exact ⟨l, by simp [ApiChatHistory.get_set]⟩
  · exact ⟨[], by simp [ApiChatHistory.get_set, hg]⟩

/-- C5 amended: history updates are append-only except for the one
relocation the counterexample exhibits.  The normal-flow update
extends every persona list other than the source tab; it extends every
list whenever the reply stays on the source persona; when the reply is
attributed elsewhere, the list of the source tab becomes its previous value
with the just-sent user message filtered out, while the destination
receives the relocated user message and the reply; and every handoff
action update is a pure append on every persona list. -/
theorem history_updates_append_only_except_relocation :
    (∀ (prev : ApiChatHistory) (sourceTab : GoddessKey) (u a : ChatMessage)
        (g : GoddessKey), g ≠ sourceTab →
      ∃ suffix, (normalFlowUpdate prev sourceTab u a).get g
          = prev.get g ++ suffix) ∧
      (∀ (prev : ApiChatHistory) (sourceTab : GoddessKey) (u a : ChatMessage),
        a.goddess = sourceTab →
        ∀ g, ∃ suffix, (normalFlowUpdate prev sourceTab u a).get g
            = prev.get g ++ suffix) ∧
      (∀ (prev : ApiChatHistory) (sourceTab : GoddessKey) (u a : ChatMessage),
        a.goddess ≠ sourceTab →
        (normalFlowUpdate prev sourceTab u a).get sourceTab
            = (prev.get sourceTab).filter (fun m => m.id != u.id) ∧
          (normalFlowUpdate prev sourceTab u a).get a.goddess
            = prev.get a.goddess ++ [{ u with goddess := a.goddess }, a]) ∧
      (∀ (s : ChatState) (act : HandoffAction) (now : String) (net : NetResult)
          (g : GoddessKey),
        ∃ suffix, (handleHandoffAction s act now net).1.messagesByGoddess.get g
            = s.messagesByGoddess.get g ++ suffix) := by
  refine ⟨?_, ?_, ?_, ?_⟩
  · intro prev sourceTab u a g hg
    by_cases hd : a.goddess = sourceTab
    · refine ⟨[], ?_⟩
      simp [normalFlowUpdate, hd, ApiChatHistory.get_set, hg]
    · by_cases hga : g = a.goddess
      · refine ⟨[{ u with goddess := a.goddess }, a], ?_⟩
        subst hga
        simp [normalFlowUpdate, hd, ApiChatHistory.get_set, hg]
      · refine ⟨[], ?_⟩
        simp [normalFlowUpdate, hd, ApiChatHistory.get_set, hg, hga]
  · intro prev sourceTab u a hd g
    by_cases hg : g = sourceTab
    · subst hg
      refine ⟨[a], ?_⟩
      simp [normalFlowUpdate, hd, ApiChatHistory.get_set]
    · refine ⟨[], ?_⟩
      simp [normalFlowUpdate, hd, ApiChatHistory.get_set, hg]
  · intro prev sourceTab u a hd
    constructor
    · have hs : sourceTab ≠ a.goddess := fun h => hd h.symm
      simp [normalFlowUpdate, hd, ApiChatHistory.get_set, hs]
    · simp [normalFlowUpdate, hd, ApiChatHistory.get_set]
  · intro s act now net g
    simp only [handleHandoffAction]
    by_cases h1 : s.hasTokenFetcher = false
    · rw [if_pos h1]; exact ⟨[], by simp⟩
    · rw [if_neg h1]
      by_cases h2 : s.pendingRecommendation.isNone = true
      · rw [if_pos h2]; exact ⟨[], by simp⟩
      · rw [if_neg h2]
        cases net with
        | err => exact ⟨[], by simp⟩
        | ok response =>
          obtain ⟨rmsg, rgod, rint, rcit, rts, rtr⟩ := response
          cases act <;> cases rgod <;>
            simpa using set_append_extends s.messagesByGoddess _ _ g

/-- C5 amended witness: concrete instances of the append-only cases. -/
theorem history_updates_append_only_except_relocation_check :
    (∃ suffix, (normalFlowUpdate relocPrev GoddessKey.gaia relocUser
          relocAssistant).get GoddessKey.athena
        = relocPrev.get GoddessKey.athena ++ suffix) ∧
      (∃ suffix, (normalFlowUpdate relocPrev GoddessKey.gaia relocUser
            relocAssistantSame).get GoddessKey.gaia
          = relocPrev.get GoddessKey.gaia ++ suffix) ∧
      (∃ suffix,
        (handleHandoffAction sampleState HandoffAction.decline "t0"
              NetResult.err).1.messagesByGoddess.get GoddessKey.gaia
          = sampleState.messagesByGoddess.get GoddessKey.gaia ++ suffix) :=
  ⟨history_updates_append_only_except_relocation.1 relocPrev GoddessKey.gaia
      relocUser relocAssistant GoddessKey.athena (by decide),
    history_updates_append_only_except_relocation.2.1 relocPrev GoddessKey.gaia
      relocUser relocAssistantSame (by decide) GoddessKey.gaia,
    history_updates_append_only_except_relocation.2.2.2 sampleState
      HandoffAction.decline "t0" NetResult.err GoddessKey.gaia⟩

/-!  C6 -/

/-- Membership in an updated history comes from the old list or from
the written value. -/
theorem ApiChatHistory.mem_set_elim (h : ApiChatHistory) (k g : GoddessKey)
    (v : List ChatMessage) (m : ChatMessage) (hm : m ∈ (h.set k v).get g) :
    m ∈ h.get g ∨ (g = k ∧ m ∈ v) := by
  rw [ApiChatHistory.get_set] at hm
  by_cases hg : g = k
  · rw [if_pos hg] at hm
    exact Or.inr ⟨hg, hm⟩
  · rw [if_neg hg] at hm
    exact Or.inl hm

/-- Membership after appending one message to one persona list. -/
theorem ApiChatHistory.mem_append_one_elim (h : ApiChatHistory) (k g : GoddessKey)
    (w : ChatMessage) (m : ChatMessage)
    (hm : m ∈ (h.set k (h.get k ++ [w])).get g) : m ∈ h.get g ∨ m = w := by
  rcases ApiChatHistory.mem_set_elim _ _ _ _ _ hm with h1 | ⟨hg, h1⟩
  · exact Or.inl h1
  · rcases List.mem_append.mp h1 with h2 | h2
    · exact Or.inl (hg ▸ h2)
    · exact Or.inr (List.mem_singleton.mp h2)

/-- Every message in a history produced by the normal-flow update was
already present, or is the (possibly relocated) user message, or is
the assistant reply. -/
theorem normalFlowUpdate_mem (prev : ApiChatHistory) (st : GoddessKey)
    (u a : ChatMessage) (g : GoddessKey) (m : ChatMessage)
    (hm : m ∈ (normalFlowUpdate prev st u a).get g) :
    m ∈ prev.get g ∨ m = { u with goddess := a.goddess } ∨ m = a := by
  simp only [normalFlowUpdate] at hm
  by_cases hd : a.goddess ≠ st
  · rw [if_pos hd] at hm
    have hnext :
        ∀ g' : GoddessKey,
          m ∈ ((prev.set st
                ((prev.get st).filter (fun msg => msg.id != u.id))).set a.goddess
                (prev.get a.goddess ++ [{ u with goddess := a.goddess }])).get g' →
            m ∈ prev.get g' ∨ m = { u with goddess := a.goddess } := by
      intro g' hmem
      rcases ApiChatHistory.mem_set_elim _ _ _ _ _ hmem with h1 | ⟨hg1, h1⟩
      · rcases ApiChatHistory.mem_set_elim _ _ _ _ _ h1 with h2 | ⟨hg2, h2⟩
        · exact Or.inl h2
        · exact Or.inl (by rw [hg2]; exact List.mem_of_mem_filter h2)
      · rcases List.mem_append.mp h1 with h2 | h2
        · exact Or.inl (hg1 ▸ h2)
        · exact Or.inr (List.mem_singleton.mp h2)
    rcases ApiChatHistory.mem_set_elim _ _ _ _ _ hm with h1 | ⟨hg1, h1⟩
    · rcases hnext g h1 with h | h
      · exact Or.inl h
      · exact Or.inr (Or.inl h)
    · rcases List.mem_append.mp h1 with h2 | h2
      · rcases hnext a.goddess h2 with h | h
        · exact Or.inl (hg1 ▸ h)
        · exact Or.inr (Or.inl h)
      · exact Or.inr (Or.inr (List.mem_singleton.mp h2))
  · rw [if_neg hd] at hm
    rcases ApiChatHistory.mem_set_elim _ _ _ _ _ hm with h1 | ⟨hg1, h1⟩
    · rcases ApiChatHistory.mem_set_elim _ _ _ _ _ h1 with h2 | ⟨hg2, h2⟩
      · exact Or.inl h2
      · exact Or.inl (hg2 ▸ h2)
    · rcases List.mem_append.mp h1 with h2 | h2
      · rcases ApiChatHistory.mem_set_elim _ _ _ _ _ h2 with h3 | ⟨hg3, h3⟩
        · exact Or.inl (hg1 ▸ h3)
        · exact Or.inl (by rw [hg1, hg3]; exact h3)
      · exact Or.inr (Or.inr (List.mem_singleton.mp h2))

/-- C6: citations are never invented by the client.  Every message
present after `handleSend` or `handleHandoffAction` either was already
in the history of that persona, or carries an empty citations list (user
messages and the error fallback), or carries exactly the citations
array of the decoded API response it was built from. -/
theorem citations_never_invented :
    (∀ (s : ChatState) (o : Option String) (now : String) (net : NetResult)
        (g : GoddessKey) (m : ChatMessage),
      m ∈ (handleSend s o now net).1.messagesByGoddess.get g →
      m ∈ s.messagesByGoddess.get g ∨ m.citations = [] ∨
        ∃ r, net = NetResult.ok r ∧ m.citations = r.citations.getD []) ∧
      (∀ (s : ChatState) (act : HandoffAction) (now : String) (net : NetResult)
          (g : GoddessKey) (m : ChatMessage),
        m ∈ (handleHandoffAction s act now net).1.messagesByGoddess.get g →
        m ∈ s.messagesByGoddess.get g ∨ m.citations = [] ∨
          ∃ r, net = NetResult.ok r ∧ m.citations = r.citations.getD []) := by
  constructor
  · intro s o now net g m hm
    simp only [handleSend] at hm
    by_cases h1 : jsTrim (o.getD s.inputText) = "" ∨ s.isSending = true
    · rw [if_pos h1] at hm
      exact Or.inl hm
    · rw [if_neg h1] at hm
      by_cases h2 : s.isAuthenticated = false
      · rw [if_pos h2] at hm
        exact Or.inl hm
      · rw [if_neg h2] at hm
        by_cases h3 : s.pendingRecommendation.isSome = true ∨
            s.pendingTabSwitch.isSome = true
        · rw [if_pos h3] at hm
          exact Or.inl hm
        · rw [if_neg h3] at hm
          cases net with
          | err =>
            rcases ApiChatHistory.mem_append_one_elim _ _ _ _ _ hm with hA | hA
            · rcases ApiChatHistory.mem_append_one_elim _ _ _ _ _ hA with hB | hB
              · exact Or.inl hB
              · exact Or.inr (Or.inl (by rw [hB]))
            · exact Or.inr (Or.inl (by rw [hA]))
          | ok response =>
            obtain ⟨rmsg, rgod, rint, rcit, rts, rtr⟩ := response
            have hnorm :
                m ∈ (normalFlowUpdate
                      (s.messagesByGoddess.set s.activeTab
                        (s.messagesByGoddess.get s.activeTab ++
                          [{ id := "user-" ++ now, role := Role.user
                             content := jsTrim (o.getD s.inputText)
                             goddess := s.activeTab, intent := none
                             timestamp := now, citations := [], suggested := none
                             handoffReason := none }]))
                      s.activeTab
                      { id := "user-" ++ now, role := Role.user
                        content := jsTrim (o.getD s.inputText)
                        goddess := s.activeTab, intent := none, timestamp := now
                        citations := [], suggested := none, handoffReason := none }
                      { id := "assistant-" ++ rts.getD now, role := Role.assistant
                        content := rmsg, goddess := rgod.getD GoddessKey.gaia
                        intent := rint, timestamp := rts.getD now
                        citations := rcit.getD [], suggested := none
                        handoffReason := none }).get g →
                  m ∈ s.messagesByGoddess.get g ∨ m.citations = [] ∨
                    ∃ r, NetResult.ok
                        ({ message := rmsg, goddess := rgod, intent := rint
                           citations := rcit, timestamp := rts, trace := rtr } :
                          ApiChatResponse) = NetResult.ok r ∧
                      m.citations = r.citations.getD [] := by
              intro hmem
              rcases normalFlowUpdate_mem _ _ _ _ _ _ hmem with hA | hA | hA
              · rcases ApiChatHistory.mem_append_one_elim _ _ _ _ _ hA with hB | hB
                · exact Or.inl hB
                · exact Or.inr (Or.inl (by rw [hB]))
              · exact Or.inr (Or.inl (by rw [hA]))
              · refine Or.inr (Or.inr ⟨_, rfl, ?_⟩)
                rw [hA]
            cases rtr with
            | none => exact hnorm hm
            | some t =>
              obtain ⟨tstage, tsuggested, treason⟩ := t
              cases tstage with
              | none => exact hnorm hm
              | some stg =>
                cases tsuggested with
                | none => exact hnorm hm
                | some sg =>
                  dsimp only at hm
                  by_cases hst : stg = "awaiting_confirmation"
                  · rw [if_pos hst] at hm
                    rcases ApiChatHistory.mem_append_one_elim _ _ _ _ _ hm with
                      hA | hA
                    · rcases ApiChatHistory.mem_append_one_elim _ _ _ _ _ hA with
                        hB | hB
                      · exact Or.inl hB
                      · exact Or.inr (Or.inl (by rw [hB]))
                    · refine Or.inr (Or.inr ⟨_, rfl, ?_⟩)
                      rw [hA]
                  · rw [if_neg hst] at hm
                    exact hnorm hm
  · intro s act now net g m hm
    simp only [handleHandoffAction] at hm
    by_cases h1 : s.hasTokenFetcher = false
    · rw [if_pos h1] at hm
      exact Or.inl hm
    · rw [if_neg h1] at hm
      by_cases h2 : s.pendingRecommendation.isNone = true
      · rw [if_pos h2] at hm
        exact Or.inl hm
      · rw [if_neg h2] at hm
        cases net with
        | err => exact Or.inl hm
        | ok response =>
          obtain ⟨rmsg, rgod, rint, rcit, rts, rtr⟩ := response
          have helim :
              m ∈ (s.messagesByGoddess.set (rgod.getD s.currentGoddess)
                    (s.messagesByGoddess.get (rgod.getD s.currentGoddess) ++
                      [{ id := "assistant-" ++ rts.getD now, role := Role.assistant
                         content := rmsg, goddess := rgod.getD s.currentGoddess
                         intent := rint, timestamp := rts.getD now
                         citations := rcit.getD [], suggested := none
                         handoffReason := none }])).get g →
                m ∈ s.messagesByGoddess.get g ∨ m.citations = [] ∨
                  ∃ r, NetResult.ok
                      ({ message := rmsg, goddess := rgod, intent := rint
                         citations := rcit, timestamp := rts, trace := rtr } :
                        ApiChatResponse) = NetResult.ok r ∧
                    m.citations = r.citations.getD [] := by
            intro hmem
            rcases ApiChatHistory.mem_append_one_elim _ _ _ _ _ hmem with hA | hA
            · exact Or.inl hA
            · refine Or.inr (Or.inr ⟨_, rfl, ?_⟩)
              rw [hA]
          cases act with
          | confirm =>
            cases rgod with
            | none => exact helim hm
            | some key => exact helim hm
          | decline => exact helim hm

/-- C6 witness: at a concrete successful exchange, the relocated user
message found in the Athena history satisfies the
citations-from-retrieval disjunction. -/
theorem citations_never_invented_check :
    (⟨"user-t0", Role.user, "help", GoddessKey.athena, none, "t0", [], none,
        none⟩ : ChatMessage) ∈
        sampleState.messagesByGoddess.get GoddessKey.athena ∨
      (⟨"user-t0", Role.user, "help", GoddessKey.athena, none, "t0", [], none,
          none⟩ : ChatMessage).citations = [] ∨
      ∃ r, NetResult.ok sampleResponse = NetResult.ok r ∧
        (⟨"user-t0", Role.user, "help", GoddessKey.athena, none, "t0", [],
            none, none⟩ : ChatMessage).citations = r.citations.getD [] :=
  citations_never_invented.1 sampleState (some "help") "t0"
    (NetResult.ok sampleResponse) GoddessKey.athena
    ⟨"user-t0", Role.user, "help", GoddessKey.athena, none, "t0", [], none, none⟩
    (by decide)

/-!  C7 -/

/-- A matcher step never leaves the set consisting of the current best
and the candidate. -/
theorem matchStep_eq_or (e : GoddessKey → GoddessKey → Bool) (msg : List String)
    (b g : GoddessKey) : matchStep e msg b g = b ∨ matchStep e msg b g = g := by
  unfold matchStep
  split_ifs <;> simp

/-- Once the uniquely scoring persona is the best, every further step
keeps it. -/
theorem matchStep_keeps_best (e : GoddessKey → GoddessKey → Bool)
    (msg : List String) (p g : GoddessKey) (hp : 0 < keywordScore msg p)
    (h0 : g ≠ p → keywordScore msg g = 0) : matchStep e msg p g = p := by
  by_cases hgp : g = p
  · subst hgp
    unfold matchStep
    split_ifs <;> rfl
  · have hz := h0 hgp
    unfold matchStep
    rw [if_neg, if_neg]
    · intro hand
      exact absurd (hand.1.symm.trans hz) (Nat.pos_iff_ne_zero.mp hp)
    · rw [hz]
      exact Nat.not_lt_zero _

/-- Folding further candidates over the uniquely scoring persona keeps
it. -/
theorem foldl_keeps_best (e : GoddessKey → GoddessKey → Bool)
    (msg : List String) (p : GoddessKey) (hp : 0 < keywordScore msg p)
    (h0 : ∀ q, q ≠ p → keywordScore msg q = 0) :
    ∀ l : List GoddessKey, List.foldl (matchStep e msg) p l = p := by
  intro l
  induction l with
  | nil => rfl
  | cons g t ih =>
    rw [List.foldl_cons, matchStep_keeps_best e msg p g hp (h0 g), ih]

/-- Folding a list containing the uniquely scoring persona over any
zero-scoring start reaches that persona. -/
theorem foldl_reaches_best (e : GoddessKey → GoddessKey → Bool)
    (msg : List String) (p : GoddessKey) (hp : 0 < keywordScore msg p)
    (h0 : ∀ q, q ≠ p → keywordScore msg q = 0) :
    ∀ (l : List GoddessKey) (b : GoddessKey), keywordScore msg b = 0 → p ∈ l →
      List.foldl (matchStep e msg) b l = p := by
  intro l
  induction l with
  | nil =>
    intro b _ hmem
    exact absurd hmem (List.not_mem_nil p)
  | cons g t ih =>
    intro b hb hmem
    rw [List.foldl_cons]
    by_cases hgp : g = p
    · subst hgp
      have hstep : matchStep e msg b g = g := by
        unfold matchStep
        rw [if_pos]
        rw [hb]
        exact hp
      rw [hstep]
      exact foldl_keeps_best e msg g hp h0 t
    · have hg0 := h0 g hgp
      have hb1 : keywordScore msg (matchStep e msg b g) = 0 := by
        rcases matchStep_eq_or e msg b g with h | h <;> rw [h]
        · exact hb
        · exact hg0
      have hmem1 : p ∈ t := by
        rcases List.mem_cons.mp hmem with h | h
        · exact absurd h.symm hgp
        · exact h
      exact ih (matchStep e msg b g) hb1 hmem1

/-- C7: if a message contains keywords of exactly one persona —
that persona scores positively and all others score zero — the matcher
selects it, for every embedding tie-break; and when no keywords match
at all, the matcher returns the default persona Gaia. -/
theorem matcher_selects_unique_keyword_goddess :
    (∀ (e : GoddessKey → GoddessKey → Bool) (msg : List String) (p : GoddessKey),
      0 < keywordScore msg p → (∀ q, q ≠ p → keywordScore msg q = 0) →
      matchGoddess e msg = p) ∧
      (∀ (e : GoddessKey → GoddessKey → Bool) (msg : List String),
        (∀ q, keywordScore msg q = 0) → matchGoddess e msg = GoddessKey.gaia) := by
  constructor
  · intro e msg p hp h0
    have hmem : p ∈ goddessList := by
      cases p <;> simp [goddessList]
    unfold matchGoddess
    rw [if_neg]
    · by_cases hpg : p = GoddessKey.gaia
      · subst hpg
        exact foldl_keeps_best e msg GoddessKey.gaia hp h0 goddessList
      · have hzg : keywordScore msg GoddessKey.gaia = 0 :=
          h0 GoddessKey.gaia fun h => hpg h.symm
        exact foldl_reaches_best e msg p hp h0 goddessList GoddessKey.gaia hzg hmem
    · intro hall
      rw [List.all_eq_true] at hall
      have hzp := hall p hmem
      rw [beq_iff_eq] at hzp
      exact absurd hzp (Nat.pos_iff_ne_zero.mp hp)
  · intro e msg h
    unfold matchGoddess
    rw [if_pos]
    rw [List.all_eq_true]
    intro g _
    rw [beq_iff_eq]
    exact h g

/-- C7 witness: a message consisting of the Athena keyword "homework"
is matched to Athena, with a trivial embedding tie-break. -/
theorem matcher_selects_unique_keyword_goddess_check :
    0 < keywordScore ["homework"] GoddessKey.athena ∧
      matchGoddess (fun _ _ => false) ["homework"] = GoddessKey.athena :=
  ⟨by decide,
    matcher_selects_unique_keyword_goddess.1 (fun _ _ => false) ["homework"]
      GoddessKey.athena (by decide) (by decide)⟩

/-!  C8 -/

/-- C8: the exchange has exactly the documented shape.  A chat send
posts the body `{message, goddess}`; the handoff helpers post exactly
`{action: confirm}` and `{action: decline}`; a decoded response
consists precisely of the fields message, goddess, intent, citations,
timestamp and trace; `handleSend` issues at most the single chat
request carrying the trimmed message and the active tab, and
`handleHandoffAction` at most the single handoff request carrying its
action. -/
theorem api_request_shapes :
    (∀ (m : String) (g : GoddessKey),
      sendChatMessage m g = ApiRequest.chat { message := m, goddess := g }) ∧
      confirmHandoff = ApiRequest.handoff { action := HandoffAction.confirm } ∧
      declineHandoff = ApiRequest.handoff { action := HandoffAction.decline } ∧
      (∀ r : ApiChatResponse,
        r = { message := r.message, goddess := r.goddess, intent := r.intent,
              citations := r.citations, timestamp := r.timestamp,
              trace := r.trace }) ∧
      (∀ (s : ChatState) (o : Option String) (now : String) (net : NetResult),
        (handleSend s o now net).2 = [] ∨
          (handleSend s o now net).2
            = [sendChatMessage (jsTrim (o.getD s.inputText)) s.activeTab]) ∧
      (∀ (s : ChatState) (act : HandoffAction) (now : String) (net : NetResult),
        (handleHandoffAction s act now net).2 = [] ∨
          (handleHandoffAction s act now net).2
            = [ApiRequest.handoff { action := act }]) := by
  refine ⟨fun m g => rfl, rfl, rfl, ?_, ?_, ?_⟩
  · intro r
    cases r
    rfl
  · intro s o now net
    simp only [handleSend]
    by_cases h1 : jsTrim (o.getD s.inputText) = "" ∨ s.isSending = true
    · rw [if_pos h1]
      exact Or.inl rfl
    · rw [if_neg h1]
      by_cases h2 : s.isAuthenticated = false
      · rw [if_pos h2]
        exact Or.inl rfl
      · rw [if_neg h2]
        by_cases h3 : s.pendingRecommendation.isSome = true ∨
            s.pendingTabSwitch.isSome = true
        · rw [if_pos h3]
          exact Or.inl rfl
        · rw [if_neg h3]
          right
          cases net with
          | err => rfl
          | ok response =>
            obtain ⟨rmsg, rgod, rint, rcit, rts, rtr⟩ := response
            cases rtr with
            | none => rfl
            | some t =>
              obtain ⟨tstage, tsuggested, treason⟩ := t
              cases tstage with
              | none => rfl
              | some stg =>
                cases tsuggested with
                | none => rfl
                | some sg =>
                  dsimp only
                  by_cases hst : stg = "awaiting_confirmation"
                  · rw [if_pos hst]
                  · rw [if_neg hst]
  · intro s act now net
    simp only [handleHandoffAction]
    by_cases h1 : s.hasTokenFetcher = false
    · rw [if_pos h1]
      exact Or.inl rfl
    · rw [if_neg h1]
      by_cases h2 : s.pendingRecommendation.isNone = true
      · rw [if_pos h2]
        exact Or.inl rfl
      · rw [if_neg h2]
        right
        cases net with
        | err => cases act <;> rfl
        | ok response =>
          obtain ⟨rmsg, rgod, rint, rcit, rts, rtr⟩ := response
          cases act <;> cases rgod <;> rfl

end Gaia
